import Mathlib

/-!
Verification of the ForkliftSimulator repository.

The development shallowly embeds the two relevant Python modules:

* `forklift_simulator.py` — the stochastic motion/sensor simulation engine
  (`ForkliftSimulator._simulation_loop`, `get_telemetry`,
  `calculate_rssi_from_distance`, `calculate_distance`);
* `forklift_server.py` — the ingestion listener (`handle_client`), the
  weighted-centroid positioning estimator (`process_indoor_position`) and the
  per-vehicle CSV registry (`csv_files` dictionary).

Conventions used throughout:

* Python floats are embedded as real numbers (`ℝ`); the source computes with
  `math.sqrt`, `math.cos`, `math.sin`, `math.log10` and float `**`, so the
  embedding necessarily lives in `ℝ` and the corresponding definitions are
  `noncomputable`.  Concrete evaluations in witnesses are carried out with
  `simp`/`norm_num`.
* Every call to Python's `random` module is replaced by an explicit input: a
  tick of the simulation loop receives a `TickDraws` record holding the values
  that `random.random()`, `random.uniform(...)`, `random.gauss(...)` and
  `datetime.now()` would have produced during that tick, and a snapshot
  receives a `TelemetryDraws` record.  Timestamps are embedded as real
  numbers.
* Python `round` (banker's rounding, ties to even) is embedded by
  `roundHalfEven`; `round(x, 2)` becomes `pyRound2`.
* JSON dictionaries are embedded as association lists in insertion order;
  an absent key becomes `Option.none`.
-/

/-- Vehicle environment, the two keys of `ENVIRONMENT_SIZE`
(`forklift_simulator.py`, lines 16-19). -/
inductive Env where
  | indoor
  | outdoor
deriving DecidableEq, Repr

/-- `ENVIRONMENT_SIZE` (`forklift_simulator.py`, lines 16-19):
indoor 25 m x 20 m, outdoor 1000 m x 1000 m. -/
def ENVIRONMENT_SIZE : Env → ℝ × ℝ
  | .indoor => (25, 20)
  | .outdoor => (1000, 1000)

/-- `BEACON_POSITIONS` (identical tables in `forklift_simulator.py` lines
22-27 and `forklift_server.py` lines 18-23), as an association list in the
dictionaries' insertion order. -/
def BEACON_POSITIONS : List (String × ℝ × ℝ) :=
  [("beacon1", (0, 0)), ("beacon2", (25, 0)), ("beacon3", (25, 20)), ("beacon4", (0, 20))]

/-- `CHARGING_STATIONS` (`forklift_simulator.py`, lines 30-35). -/
def CHARGING_STATIONS : List (String × ℝ × ℝ) :=
  [("indoor_charge1", (2, 2)), ("indoor_charge2", (23, 18)),
   ("outdoor_charge1", (100, 100)), ("outdoor_charge2", (900, 900))]

/-- `RSSI_AT_1M = -60` (`forklift_simulator.py`, line 38); a Python int. -/
def RSSI_AT_1M : ℤ := -60

/-- `PATH_LOSS_EXPONENT = 3.0` (`forklift_simulator.py`, line 39). -/
def PATH_LOSS_EXPONENT : ℝ := 3

/-- `MAX_SPEED_INDOOR = 2.0` (`forklift_simulator.py`, line 43). -/
def MAX_SPEED_INDOOR : ℝ := 2

/-- `MAX_SPEED_OUTDOOR = 5.0` (`forklift_simulator.py`, line 44). -/
def MAX_SPEED_OUTDOOR : ℝ := 5

/-- `ACCELERATION = 0.2` (`forklift_simulator.py`, line 45). -/
def ACCELERATION : ℝ := 0.2

/-- `PROBABILITY_OF_STANDING_STILL = 0.15` (`forklift_simulator.py`, line 46). -/
def PROBABILITY_OF_STANDING_STILL : ℝ := 0.15

/-- `PROBABILITY_OF_IMPACT = 0.01` (`forklift_simulator.py`, line 47). -/
def PROBABILITY_OF_IMPACT : ℝ := 0.01

/-- `calculate_distance` (`forklift_simulator.py`, lines 50-51):
Euclidean distance via `math.sqrt`. -/
noncomputable def calculate_distance (x1 y1 x2 y2 : ℝ) : ℝ :=
  Real.sqrt ((x2 - x1) ^ 2 + (y2 - y1) ^ 2)

/-- Python's built-in `round` to an integer: round half to even. -/
noncomputable def roundHalfEven (x : ℝ) : ℤ :=
  if x - ⌊x⌋ < 1 / 2 then ⌊x⌋
  else if 1 / 2 < x - ⌊x⌋ then ⌊x⌋ + 1
  else if Even ⌊x⌋ then ⌊x⌋ else ⌊x⌋ + 1

/-- Python's `round(x, 2)`: round half to even at two decimal places. -/
noncomputable def pyRound2 (x : ℝ) : ℝ :=
  (roundHalfEven (x * 100) : ℝ) / 100

/-- `calculate_rssi_from_distance` (`forklift_simulator.py`, lines 54-64).
The `random.gauss(0, RSSI_NOISE_STD_DEV)` sample is the explicit `noise`
argument.  Python returns an int in both branches (`RSSI_AT_1M` and
`round(...)`), embedded as `ℤ`. -/
noncomputable def calculate_rssi_from_distance (distance noise : ℝ) : ℤ :=
  if distance ≤ 0 then RSSI_AT_1M
  else roundHalfEven ((RSSI_AT_1M : ℝ) - 10 * PATH_LOSS_EXPONENT * Real.logb 10 distance + noise)

/-- An impact event as stored in `self.impacts`
(`forklift_simulator.py`, lines 174-179). -/
structure Impact where
  timestamp : ℝ
  magnitude : ℝ
  pos : ℝ × ℝ

/-- The mutable state of a `ForkliftSimulator` instance
(`forklift_simulator.py`, lines 68-99). -/
structure SimState where
  forkliftId : String
  environment : Env
  roomW : ℝ
  roomH : ℝ
  x : ℝ
  y : ℝ
  speed : ℝ
  maxSpeed : ℝ
  direction : ℝ
  distanceTraveled : ℝ
  standingStill : Bool
  batteryLevel : ℝ
  impacts : List Impact
  maxRecordedSpeed : ℝ
  speedReadings : List ℝ
  positionAccuracy : ℝ

/-- The values drawn from `random` / the clock during one iteration of
`ForkliftSimulator._simulation_loop` (`forklift_simulator.py`, lines
104-183), made explicit inputs of the tick function. -/
structure TickDraws where
  /-- `time_delta = current_time - last_update` (line 106). -/
  dt : ℝ
  /-- `random.random()` compared with `PROBABILITY_OF_STANDING_STILL` (line 125). -/
  idleDraw : ℝ
  /-- `random.random()` compared with `0.05` (line 133). -/
  dirChangeDraw : ℝ
  /-- `random.uniform(0, 2 * math.pi)` (line 134). -/
  newDirection : ℝ
  /-- `random.random()` compared with `0.7` (line 137). -/
  accelDraw : ℝ
  /-- `random.random()` compared with `PROBABILITY_OF_IMPACT` (line 173). -/
  impactDraw : ℝ
  /-- `random.uniform(0.5, 5.0)` (line 174). -/
  impactMagnitude : ℝ
  /-- `datetime.now()` for the impact record (line 176). -/
  timestamp : ℝ

namespace ForkliftSimulator

/-- `ForkliftSimulator.__init__` (`forklift_simulator.py`, lines 68-99).
The arguments `rx`, `ry`, `rdir`, `rbat` are the samples of
`random.uniform(0, room_size[0])`, `random.uniform(0, room_size[1])`,
`random.uniform(0, 2 * math.pi)` and `random.uniform(50, 100)`. -/
noncomputable def init (fid : String) (env : Env) (rx ry rdir rbat : ℝ) : SimState :=
  { forkliftId := fid
    environment := env
    roomW := (ENVIRONMENT_SIZE env).1
    roomH := (ENVIRONMENT_SIZE env).2
    x := rx
    y := ry
    speed := 0
    maxSpeed := if env = .indoor then MAX_SPEED_INDOOR else MAX_SPEED_OUTDOOR
    direction := rdir
    distanceTraveled := 0
    standingStill := false
    batteryLevel := rbat
    impacts := []
    maxRecordedSpeed := 0
    speedReadings := []
    positionAccuracy := if env = .outdoor then 0.5 else 2.0 }

/-- Battery drain, clamp at 0, and the charging-station branch
(`forklift_simulator.py`, lines 108-122).  The source iterates over
`CHARGING_STATIONS.items()` and `break`s at the first station closer than 3,
which `List.find?` reproduces; the applied update does not depend on which
station matched. -/
noncomputable def batteryStep (s : SimState) (dt : ℝ) : SimState :=
  let b1 := s.batteryLevel - 0.01 * dt
  let b2 := if b1 < 0 then 0 else b1
  let s1 := { s with batteryLevel := b2 }
  if b2 < 30 then
    match CHARGING_STATIONS.find?
        (fun p => decide (calculate_distance s1.x s1.y p.2.1 p.2.2 < 3)) with
    | some _ =>
        let b3 := b2 + 2 * dt
        { s1 with speed := 0, standingStill := true,
                  batteryLevel := if b3 > 100 then 100 else b3 }
    | none => s1
  else s1

/-- The idle/moving random decision (`forklift_simulator.py`, lines 124-140):
either stand still and decelerate, or move, possibly changing direction and
accelerating (clamped to `max_speed`) or decelerating (clamped to 0). -/
noncomputable def motionDecision (s : SimState) (d : TickDraws) : SimState :=
  if d.idleDraw < PROBABILITY_OF_STANDING_STILL then
    { s with standingStill := true, speed := max 0 (s.speed - ACCELERATION * d.dt) }
  else
    let s1 := { s with standingStill := false }
    let s2 := if d.dirChangeDraw < 0.05 then { s1 with direction := d.newDirection } else s1
    if d.accelDraw < 0.7 then
      { s2 with speed := min s2.maxSpeed (s2.speed + ACCELERATION * d.dt) }
    else
      { s2 with speed := max 0 (s2.speed - ACCELERATION * d.dt) }

/-- Movement along the current direction with bounce-and-clamp at the room
bounds, and accumulation of the travelled distance
(`forklift_simulator.py`, lines 142-162). -/
noncomputable def moveStep (s : SimState) (dt : ℝ) : SimState :=
  let distance := s.speed * dt
  let newX := s.x + distance * Real.cos s.direction
  let newY := s.y + distance * Real.sin s.direction
  let dir1 := if newX < 0 ∨ newX > s.roomW then Real.pi - s.direction else s.direction
  let newX1 := if newX < 0 ∨ newX > s.roomW then max 0 (min s.roomW newX) else newX
  let dir2 := if newY < 0 ∨ newY > s.roomH then 2 * Real.pi - dir1 else dir1
  let newY1 := if newY < 0 ∨ newY > s.roomH then max 0 (min s.roomH newY) else newY
  let stepDistance := calculate_distance s.x s.y newX1 newY1
  { s with x := newX1, y := newY1, direction := dir2,
           distanceTraveled := s.distanceTraveled + stepDistance }

/-- Speed statistics: maximum recorded speed and the rolling window of the
last 100 speed readings (`forklift_simulator.py`, lines 164-170). -/
noncomputable def statsStep (s : SimState) : SimState :=
  let s1 := if s.speed > s.maxRecordedSpeed then { s with maxRecordedSpeed := s.speed } else s
  let sr := s1.speedReadings ++ [s1.speed]
  { s1 with speedReadings := if sr.length > 100 then sr.rtake 100 else sr }

/-- Random impact generation while moving
(`forklift_simulator.py`, lines 172-180). -/
noncomputable def impactStep (s : SimState) (d : TickDraws) : SimState :=
  if ¬ s.standingStill ∧ d.impactDraw < PROBABILITY_OF_IMPACT then
    { s with impacts := s.impacts ++ [⟨d.timestamp, d.impactMagnitude, (s.x, s.y)⟩] }
  else s

/-- One iteration of `ForkliftSimulator._simulation_loop`
(`forklift_simulator.py`, lines 104-183), phases in source order. -/
noncomputable def tick (s : SimState) (d : TickDraws) : SimState :=
  impactStep (statsStep (moveStep (motionDecision (batteryStep s d.dt) d) d.dt)) d

/-- `ForkliftSimulator.get_position` (`forklift_simulator.py`, lines 185-189);
`nx`, `ny` are the `random.gauss(0, self.position_accuracy)` samples. -/
noncomputable def get_position (s : SimState) (nx ny : ℝ) : ℝ × ℝ :=
  (s.x + nx, s.y + ny)

/-- `ForkliftSimulator.get_average_speed` (`forklift_simulator.py`,
lines 191-194). -/
noncomputable def get_average_speed (s : SimState) : ℝ :=
  if s.speedReadings.isEmpty then 0
  else s.speedReadings.sum / s.speedReadings.length

end ForkliftSimulator

/-- One beacon reading as carried in a JSON record: the `distance` and
`rssi` keys, each possibly absent (`forklift_server.py` reads them with
key-presence checks and `.get`). -/
structure BeaconReading where
  distance : Option ℝ
  rssi : Option ℝ

/-- The values drawn from `random` / the clock during
`ForkliftSimulator.get_telemetry` (`forklift_simulator.py`, lines 196-226). -/
structure TelemetryDraws where
  /-- `datetime.now()` (line 211). -/
  timestamp : ℝ
  /-- `random.gauss(0, self.position_accuracy)` for x (line 187). -/
  noiseX : ℝ
  /-- `random.gauss(0, self.position_accuracy)` for y (line 188). -/
  noiseY : ℝ
  /-- `random.gauss(0, RSSI_NOISE_STD_DEV)` inside
  `calculate_rssi_from_distance`, one sample per beacon (line 62). -/
  rssiNoise : String → ℝ

/-- The JSON snapshot returned by `ForkliftSimulator.get_telemetry`
(`forklift_simulator.py`, lines 210-226). -/
structure Telemetry where
  timestamp : ℝ
  forkliftId : String
  environment : Env
  position : ℝ × ℝ
  speed : ℝ
  maxSpeed : ℝ
  avgSpeed : ℝ
  distanceTraveled : ℝ
  batteryLevel : ℝ
  standingStill : Bool
  beaconReadings : List (String × BeaconReading)
  impacts : List Impact

namespace ForkliftSimulator

/-- `ForkliftSimulator.get_telemetry` (`forklift_simulator.py`, lines
196-226).  `impacts[-5:] if impacts else []` is embedded with `List.rtake`;
beacon readings are synthesized only indoors, iterating `BEACON_POSITIONS`
in insertion order. -/
noncomputable def get_telemetry (s : SimState) (d : TelemetryDraws) : Telemetry :=
  let position := get_position s d.noiseX d.noiseY
  { timestamp := d.timestamp
    forkliftId := s.forkliftId
    environment := s.environment
    position := (pyRound2 position.1, pyRound2 position.2)
    speed := pyRound2 s.speed
    maxSpeed := pyRound2 s.maxRecordedSpeed
    avgSpeed := pyRound2 (get_average_speed s)
    distanceTraveled := pyRound2 s.distanceTraveled
    batteryLevel := pyRound2 s.batteryLevel
    standingStill := s.standingStill
    beaconReadings :=
      if s.environment = .indoor then
        BEACON_POSITIONS.map (fun p =>
          let dist := calculate_distance s.x s.y p.2.1 p.2.2
          (p.1, { distance := some (pyRound2 dist)
                  rssi := some ((calculate_rssi_from_distance dist (d.rssiNoise p.1) : ℤ) : ℝ) }))
      else []
    impacts := if s.impacts.isEmpty then [] else s.impacts.rtake 5 }

end ForkliftSimulator

/-- One step of the accumulation loop of `process_indoor_position`
(`forklift_server.py`, lines 177-187): the accumulator is
`(total_weight, x_weighted_sum, y_weighted_sum)`; a reading contributes only
if its `beacon_id` is a key of `BEACON_POSITIONS` and it carries an `rssi`
key. -/
noncomputable def estimStep (acc : ℝ × ℝ × ℝ) (p : String × BeaconReading) : ℝ × ℝ × ℝ :=
  match BEACON_POSITIONS.lookup p.1, p.2.rssi with
  | some c, some rssi =>
      let weight := (10 : ℝ) ^ ((rssi + 100) / 20)
      (acc.1 + weight, acc.2.1 + c.1 * weight, acc.2.2 + c.2 * weight)
  | _, _ => acc

/-- `process_indoor_position` (`forklift_server.py`, lines 164-192): RSSI
weighted centroid, returning `(None, None)` when no weight was accumulated.
The Python `(x, y)` / `(None, None)` return value is embedded as a pair of
options. -/
noncomputable def process_indoor_position
    (beacon_readings : List (String × BeaconReading)) : Option ℝ × Option ℝ :=
  let res := beacon_readings.foldl estimStep (0, 0, 0)
  if res.1 > 0 then (some (res.2.1 / res.1), some (res.2.2 / res.1))
  else (none, none)

/-- Modelled from the spec (section 4.1): the weight
`10^((signal_strength_dBm + 100) / 20)` of one reading. -/
noncomputable def specWeight (rssi : ℝ) : ℝ :=
  (10 : ℝ) ^ ((rssi + 100) / 20)

/-- Modelled from the spec (section 4.1): the readings that take part in the
weighted centroid, paired with their beacon coordinates — those whose
`beacon_id` is known to the geometry and which carry a signal value. -/
def specMatched (rs : List (String × BeaconReading)) : List ((ℝ × ℝ) × ℝ) :=
  rs.filterMap (fun p =>
    match BEACON_POSITIONS.lookup p.1, p.2.rssi with
    | some c, some rssi => some (c, rssi)
    | _, _ => none)

/-- Modelled from the spec (section 4.1): `Σ weight_i`. -/
noncomputable def specSumW (rs : List (String × BeaconReading)) : ℝ :=
  (specMatched rs).foldr (fun p acc => specWeight p.2 + acc) 0

/-- Modelled from the spec (section 4.1): the x component of
`Σ (weight_i * beacon_coordinate_i)`. -/
noncomputable def specSumX (rs : List (String × BeaconReading)) : ℝ :=
  (specMatched rs).foldr (fun p acc => p.1.1 * specWeight p.2 + acc) 0

/-- Modelled from the spec (section 4.1): the y component of
`Σ (weight_i * beacon_coordinate_i)`. -/
noncomputable def specSumY (rs : List (String × BeaconReading)) : ℝ :=
  (specMatched rs).foldr (fun p acc => p.1.2 * specWeight p.2 + acc) 0

/-- An impact entry of the wire message, read by `update_impacts_csv` with
`.get` defaults (`forklift_server.py`, lines 146-159). -/
structure ImpactMsg where
  timestamp : Option ℝ
  magnitude : Option ℝ
  position : Option (ℝ × ℝ)

/-- A successfully JSON-decoded wire message (`forklift_server.py`,
line 203 and the fields read by `handle_client` / `update_forklift_csv`).
Every field except the whole record may be absent. -/
structure TelemetryMsg where
  timestamp : Option ℝ
  forkliftId : Option String
  environment : Option String
  position : Option (ℝ × ℝ)
  speed : Option ℝ
  maxSpeed : Option ℝ
  avgSpeed : Option ℝ
  distanceTraveled : Option ℝ
  batteryLevel : Option ℝ
  standingStill : Option Bool
  beaconReadings : Option (List (String × BeaconReading))
  impacts : Option (List ImpactMsg)
  processedIndoorPosition : Option (ℝ × ℝ)

/-- One inbound connection's payload: either a payload `json.loads` rejects
(`forklift_server.py`, line 203 raising into the `except` at line 240), or a
decoded record. -/
inductive Inbound where
  | malformed
  | msg (m : TelemetryMsg)

/-- The indoor-positioning enrichment block of `handle_client`
(`forklift_server.py`, lines 215-227): for an indoor record carrying a
`beacon_readings` key, attach `processed_indoor_position` rounded to two
decimals when the estimator yields a coordinate.  The replacement of
`data['position']` is commented out in the source and hence absent here. -/
noncomputable def processPositioning (data : TelemetryMsg) : TelemetryMsg :=
  if data.environment = some "indoor" ∧ data.beaconReadings.isSome then
    match process_indoor_position (data.beaconReadings.getD []) with
    | (some ex, some ey) =>
        { data with processedIndoorPosition := some (pyRound2 ex, pyRound2 ey) }
    | _ => data
  else data

/-- The server's persistent state as seen by `handle_client`: the
`csv_files` registry keyed by forklift id together with each per-vehicle
file's appended rows (`update_forklift_csv` serializes the record's fields
in fixed column order; the rows are modelled as the records themselves),
and the shared impacts file (`update_impacts_csv` rows, one per impact,
tagged with the forklift id). -/
structure ServerState where
  csvFiles : List (String × List TelemetryMsg)
  impactsCsv : List (String × ImpactMsg)

/-- Append a row to one vehicle's CSV file
(`update_forklift_csv`, `forklift_server.py`, lines 89-133). -/
def appendRow (files : List (String × List TelemetryMsg)) (fid : String)
    (row : TelemetryMsg) : List (String × List TelemetryMsg) :=
  files.map (fun p => if p.1 = fid then (p.1, p.2 ++ [row]) else p)

/-- `handle_client` (`forklift_server.py`, lines 195-243) as a state
transformer: drop undecodable payloads and records whose `forklift_id` is
absent or falsy, lazily register a first-seen id (creating its CSV file),
enrich indoor records, append the row, and append any impacts to the shared
impacts file.  Socket handling, logging and the `finally` close have no
effect on the persistent state and are not part of the state. -/
noncomputable def handle_client (st : ServerState) (inb : Inbound) : ServerState :=
  match inb with
  | .malformed => st
  | .msg data =>
    match data.forkliftId with
    | none => st
    | some fid =>
      if fid = "" then st
      else
        let st1 := if (st.csvFiles.lookup fid).isSome then st
                   else { st with csvFiles := st.csvFiles ++ [(fid, [])] }
        let data1 := processPositioning data
        let st2 := { st1 with csvFiles := appendRow st1.csvFiles fid data1 }
        match data1.impacts with
        | some l =>
            if l.isEmpty then st2
            else { st2 with impactsCsv := st2.impactsCsv ++ l.map (fun i => (fid, i)) }
        | none => st2

/-- The property an inbound payload must violate to be ingested: the claim's
MalformedMessage (undecodable payload) and MissingIdentity (no `forklift_id`
field) error classes (`forklift_server.py`, lines 203-209). -/
def droppedInput (inb : Inbound) : Prop :=
  inb = .malformed ∨ ∃ m, inb = .msg m ∧ m.forkliftId = none

/-- One ingestion worker thread of the registry race model: its message's
vehicle id and its program counter inside `handle_client`
(`forklift_server.py`, lines 211-230).  `pc = 0`: about to evaluate
`forklift_id not in csv_files`; `pc = 1`: about to run
`initialize_forklift_csv` (header write, truncating `open('w')`); `pc = 2`:
about to store the path into the shared `csv_files` dict; `pc = 3`: about to
append the data row; `pc = 4`: done.  Vehicle ids are modelled as naturals. -/
structure RegWorker where
  vid : ℕ
  pc : ℕ
deriving DecidableEq, Repr

/-- Shared state of the registry race model: the keys of the shared
`csv_files` dict, the log of `initialize_forklift_csv` calls (by id), the
appended data rows (by id), and the worker threads. -/
structure RegSys where
  csvFiles : List ℕ
  fileInits : List ℕ
  rows : List ℕ
  workers : List RegWorker
deriving DecidableEq, Repr

/-- One atomic step of worker `i` in the registry race model.  The Python
interpreter can switch threads between the membership test, the file-creating
`initialize_forklift_csv` call (which performs I/O) and the dict store, so
each is one atomic transition. -/
def regStep (sys : RegSys) (i : ℕ) : RegSys :=
  match sys.workers[i]? with
  | none => sys
  | some w =>
    match w.pc with
    | 0 => { sys with
             workers := sys.workers.set i { w with pc := if w.vid ∈ sys.csvFiles then 3 else 1 } }
    | 1 => { sys with fileInits := sys.fileInits ++ [w.vid], workers := sys.workers.set i { w with pc := 2 } }
    | 2 => { sys with csvFiles := sys.csvFiles ++ [w.vid], workers := sys.workers.set i { w with pc := 3 } }
    | 3 => { sys with rows := sys.rows ++ [w.vid], workers := sys.workers.set i { w with pc := 4 } }
    | _ => sys

/-- Run the registry race model under an interleaving `sched` (the sequence
of worker indices the scheduler lets take one atomic step each). -/
def regRun (ws : List RegWorker) (sched : List ℕ) : RegSys :=
  sched.foldl regStep { csvFiles := [], fileInits := [], rows := [], workers := ws }

/-- Sequential (fully serialized) execution of the registration-and-append
part of `handle_client` for one message (`forklift_server.py`, lines
211-230): the whole check-create-insert-append sequence runs without
interleaving. -/
def handleSeq (sys : RegSys) (vid : ℕ) : RegSys :=
  let sys1 := if vid ∈ sys.csvFiles then sys
              else { sys with csvFiles := sys.csvFiles ++ [vid],
                              fileInits := sys.fileInits ++ [vid] }
  { sys1 with rows := sys1.rows ++ [vid] }

/-- Serialized ingestion of a list of messages (by vehicle id). -/
def runSeq (msgs : List ℕ) : RegSys :=
  msgs.foldl handleSeq { csvFiles := [], fileInits := [], rows := [], workers := [] }

/-- The weight computed by the estimator is strictly positive. -/
theorem specWeight_pos (r : ℝ) : 0 < specWeight r :=
  Real.rpow_pos_of_pos (by norm_num) _

/-- The accumulation loop of `process_indoor_position` computes exactly the
three sums of the spec's weighted-centroid formula. -/
theorem estim_foldl_eq (rs : List (String × BeaconReading)) :
    ∀ a : ℝ × ℝ × ℝ, rs.foldl estimStep a =
      (a.1 + specSumW rs, a.2.1 + specSumX rs, a.2.2 + specSumY rs) := by
  induction rs with
  | nil => intro a; simp [specSumW, specSumX, specSumY, specMatched]
  | cons p rest ih =>
    intro a
    simp only [List.foldl_cons]
    rw [ih]
    unfold estimStep specSumW specSumX specSumY specMatched specWeight
    rcases h1 : BEACON_POSITIONS.lookup p.1 with _ | c <;>
      rcases h2 : p.2.rssi with _ | r <;>
        simp only [h1, h2, List.filterMap_cons] <;> simp [specWeight] <;>
          exact ⟨by ring, by ring, by ring⟩

/-- The total weight is non-negative. -/
theorem specSumW_nonneg (rs : List (String × BeaconReading)) : 0 ≤ specSumW rs := by
  unfold specSumW
  induction specMatched rs with
  | nil => simp
  | cons p l ih => simpa using add_nonneg (specWeight_pos p.2).le ih

/-- The total weight is strictly positive as soon as one reading matched. -/
theorem specSumW_pos (rs : List (String × BeaconReading)) (h : specMatched rs ≠ []) :
    0 < specSumW rs := by
  unfold specSumW
  rcases hm : specMatched rs with _ | ⟨p, l⟩
  · exact absurd hm h
  · have hl : 0 ≤ List.foldr (fun p acc => specWeight p.2 + acc) 0 l := by
      clear hm
      induction l with
      | nil => simp
      | cons q l ih => simpa using add_nonneg (specWeight_pos q.2).le ih
    simpa using add_pos_of_pos_of_nonneg (specWeight_pos p.2) hl

/-- C10: RSSI synthesis is total: for every distance `d ≤ 0`,
`calculate_rssi_from_distance` returns exactly the reference value
`RSSI_AT_1M = -60`, independent of the noise sample (so `log10` is only ever
evaluated on a strictly positive argument), and for `d > 0` it returns the
rounded log-distance value plus the Gaussian noise sample. -/
theorem c10_rssi_synthesis_total :
    (∀ d noise : ℝ, d ≤ 0 → calculate_rssi_from_distance d noise = RSSI_AT_1M) ∧
    (∀ d noise : ℝ, 0 < d → calculate_rssi_from_distance d noise =
      roundHalfEven ((RSSI_AT_1M : ℝ) - 10 * PATH_LOSS_EXPONENT * Real.logb 10 d + noise)) ∧
    RSSI_AT_1M = -60 := by
  refine ⟨fun d noise h => by simp [calculate_rssi_from_distance, h],
    fun d noise h => ?_, rfl⟩
  simp [calculate_rssi_from_distance, not_le.mpr h]

/-- C10 witness: at distance `-1` (and noise `5`) the guard branch returns
`RSSI_AT_1M`. -/
theorem c10_rssi_synthesis_total_witness :
    calculate_rssi_from_distance (-1) 5 = RSSI_AT_1M :=
  c10_rssi_synthesis_total.1 (-1) 5 (by norm_num)

/-- C4 (amended): `process_indoor_position` returns no estimate if and only
if no reading of the input both matches a known beacon and carries an `rssi`
key (in particular for empty input); a reading with an unknown `beacon_id`
or without an `rssi` key is individually skipped and leaves the result
unchanged.  (The original claim overlooked that a reading matching a known
beacon but lacking the `rssi` key is also ignored.) -/
theorem c4_no_estimate_iff (rs : List (String × BeaconReading)) :
    (process_indoor_position rs = (none, none) ↔ specMatched rs = []) ∧
    (∀ i r, (BEACON_POSITIONS.lookup i = none ∨ BeaconReading.rssi r = none) →
      process_indoor_position ((i, r) :: rs) = process_indoor_position rs) := by
  constructor
  · rw [process_indoor_position, estim_foldl_eq]
    constructor
    · intro h
      by_contra hne
      have := specSumW_pos rs hne
      rw [if_pos (by simpa using this)] at h
      simp at h
    · intro h
      have hz : specSumW rs = 0 := by simp [specSumW, h]
      rw [if_neg (by simp [hz])]
  · intro i r hir
    rw [process_indoor_position, process_indoor_position]
    simp only [List.foldl_cons]
    have hskip : estimStep (0, 0, 0) (i, r) = (0, 0, 0) := by
      unfold estimStep
      rcases hir with h | h <;> simp [h]
    rw [hskip]

/-- C4 witness: a reading with a known beacon but no `rssi` key is skipped
exactly like an absent reading. -/
theorem c4_no_estimate_iff_witness :
    process_indoor_position [("beacon1", ⟨some 5, none⟩)] = process_indoor_position [] :=
  (c4_no_estimate_iff []).2 "beacon1" ⟨some 5, none⟩ (Or.inr rfl)

/-- C4 counterexample: the input `{"beacon1": {"distance": 5}}` is non-empty
and its single reading's `beacon_id` matches a known beacon, yet
`process_indoor_position` returns `(None, None)` because the reading lacks
an `rssi` key — refuting the claimed "if and only if the input is empty or
no reading's beacon_id matches a known beacon". -/
theorem c4_no_estimate_iff_cex :
    process_indoor_position [("beacon1", ⟨some 5, none⟩)] = (none, none) ∧
    ([("beacon1", (⟨some 5, none⟩ : BeaconReading))] : List (String × BeaconReading)) ≠ [] ∧
    (BEACON_POSITIONS.lookup "beacon1").isSome = true := by
  refine ⟨?_, by simp, by simp [BEACON_POSITIONS]⟩
  simp [process_indoor_position, estimStep, BEACON_POSITIONS]

/-- C5: whenever at least one reading matches a known beacon (and carries a
signal value, cf. the spec's BeaconReading data model), the estimate equals
`Σ (weight_i * beacon_coordinate_i) / Σ weight_i` with
`weight_i = 10^((rssi_i + 100) / 20)`; the weight is strictly monotonically
increasing in signal strength; and for the four beacons at the corners of
the configured 25 x 20 rectangle with identical signal strength on all four,
the estimate is exactly the rectangle's centroid `(12.5, 10)` (exact
equality in `ℝ`, hence within any floating-point tolerance). -/
theorem c5_weighted_centroid :
    (∀ rs : List (String × BeaconReading), specMatched rs ≠ [] →
      process_indoor_position rs =
        (some (specSumX rs / specSumW rs), some (specSumY rs / specSumW rs))) ∧
    StrictMono specWeight ∧
    (∀ r : ℝ, process_indoor_position
        [("beacon1", ⟨none, some r⟩), ("beacon2", ⟨none, some r⟩),
         ("beacon3", ⟨none, some r⟩), ("beacon4", ⟨none, some r⟩)] =
      (some (25 / 2), some 10)) := by
  refine ⟨fun rs h => ?_, fun a b hab => ?_, fun r => ?_⟩
  · rw [process_indoor_position, estim_foldl_eq]
    rw [if_pos (by simpa using specSumW_pos rs h)]
    simp
  · unfold specWeight
    rw [Real.rpow_lt_rpow_left_iff (by norm_num)]
    linarith
  · have hw : 0 < (10 : ℝ) ^ ((r + 100) / 20) := Real.rpow_pos_of_pos (by norm_num) _
    simp [process_indoor_position, estimStep, BEACON_POSITIONS, List.lookup]
    rw [if_pos (by positivity)]
    simp only [Prod.mk.injEq, Option.some.injEq]
    constructor
    · rw [div_eq_iff (by positivity)]; ring
    · rw [div_eq_iff (by positivity)]; ring

/-- C5 witness: the weighted-centroid formula instantiated on a single
matched reading. -/
theorem c5_weighted_centroid_witness :
    process_indoor_position [("beacon1", ⟨none, some (-60)⟩)] =
      (some (specSumX [("beacon1", ⟨none, some (-60)⟩)] /
               specSumW [("beacon1", ⟨none, some (-60)⟩)]),
       some (specSumY [("beacon1", ⟨none, some (-60)⟩)] /
               specSumW [("beacon1", ⟨none, some (-60)⟩)])) :=
  c5_weighted_centroid.1 [("beacon1", ⟨none, some (-60)⟩)]
    (by simp [specMatched, BEACON_POSITIONS, List.lookup])

/-- C9: for an indoor record carrying beacon readings whose estimator result
is a coordinate, ingestion attaches `processed_indoor_position` rounded to
two decimals and leaves the producer-supplied `position` — and every other
field of the record — unchanged; the estimate never replaces the original
position (the replacement is commented out in the source). -/
theorem c9_supplementary_only (m : TelemetryMsg) (br : List (String × BeaconReading))
    (ex ey : ℝ) (henv : m.environment = some "indoor")
    (hbr : m.beaconReadings = some br)
    (hest : process_indoor_position br = (some ex, some ey)) :
    (processPositioning m).processedIndoorPosition = some (pyRound2 ex, pyRound2 ey) ∧
    (processPositioning m).position = m.position ∧
    (processPositioning m).timestamp = m.timestamp ∧
    (processPositioning m).forkliftId = m.forkliftId ∧
    (processPositioning m).environment = m.environment ∧
    (processPositioning m).speed = m.speed ∧
    (processPositioning m).maxSpeed = m.maxSpeed ∧
    (processPositioning m).avgSpeed = m.avgSpeed ∧
    (processPositioning m).distanceTraveled = m.distanceTraveled ∧
    (processPositioning m).batteryLevel = m.batteryLevel ∧
    (processPositioning m).standingStill = m.standingStill ∧
    (processPositioning m).beaconReadings = m.beaconReadings ∧
    (processPositioning m).impacts = m.impacts := by
  have hb : m.beaconReadings.isSome := by simp [hbr]
  have hg : m.beaconReadings.getD [] = br := by simp [hbr]
  simp [processPositioning, henv, hb, hg, hest]

/-- C9 witness: a concrete indoor record with a single `beacon1` reading at
-60 dBm gets the estimate `(0, 0)` attached (rounded), everything else
untouched. -/
theorem c9_supplementary_only_witness :
    (processPositioning
        { timestamp := some 7, forkliftId := some "FL-001", environment := some "indoor",
          position := some (3, 4), speed := some 1, maxSpeed := some 2, avgSpeed := some 1,
          distanceTraveled := some 9, batteryLevel := some 80, standingStill := some false,
          beaconReadings := some [("beacon1", ⟨none, some (-60)⟩)], impacts := some [],
          processedIndoorPosition := none }).processedIndoorPosition =
      some (pyRound2 0, pyRound2 0) ∧
    (processPositioning
        { timestamp := some 7, forkliftId := some "FL-001", environment := some "indoor",
          position := some (3, 4), speed := some 1, maxSpeed := some 2, avgSpeed := some 1,
          distanceTraveled := some 9, batteryLevel := some 80, standingStill := some false,
          beaconReadings := some [("beacon1", ⟨none, some (-60)⟩)], impacts := some [],
          processedIndoorPosition := none }).position = some (3, 4) :=
  have h := c9_supplementary_only
    { timestamp := some 7, forkliftId := some "FL-001", environment := some "indoor",
      position := some (3, 4), speed := some 1, maxSpeed := some 2, avgSpeed := some 1,
      distanceTraveled := some 9, batteryLevel := some 80, standingStill := some false,
      beaconReadings := some [("beacon1", ⟨none, some (-60)⟩)], impacts := some [],
      processedIndoorPosition := none }
    [("beacon1", ⟨none, some (-60)⟩)] 0 0 rfl rfl
    (by
      have hw : 0 < (10 : ℝ) ^ (((-60 : ℝ) + 100) / 20) := Real.rpow_pos_of_pos (by norm_num) _
      simp [process_indoor_position, estimStep, BEACON_POSITIONS, List.lookup]
      positivity)
  ⟨h.1, h.2.1⟩

/-- C8: an unparseable payload, or a parseable record without the
`forklift_id` field, is dropped: no per-vehicle CSV is created or appended
to, the impacts log is not written (the whole persistent state is
unchanged), the connection is closed (the `finally` branch of the source),
and processing of the surrounding stream of connections is unaffected —
ingesting any sequence with the bad input inserted yields the same state as
ingesting the sequence without it. -/
theorem c8_bad_input_dropped (inb : Inbound) (h : droppedInput inb) :
    (∀ st : ServerState, handle_client st inb = st) ∧
    (∀ (st : ServerState) (pre post : List Inbound),
      (pre ++ inb :: post).foldl handle_client st = (pre ++ post).foldl handle_client st) := by
  have hdrop : ∀ st : ServerState, handle_client st inb = st := by
    intro st
    rcases h with h | ⟨m, hm, hid⟩
    · rw [h]; simp [handle_client]
    · rw [hm]; simp [handle_client, hid]
  refine ⟨hdrop, fun st pre post => ?_⟩
  rw [List.foldl_append, List.foldl_append, List.foldl_cons, hdrop]

/-- C8 witness: a malformed payload leaves the empty server state unchanged. -/
theorem c8_bad_input_dropped_witness :
    handle_client { csvFiles := [], impactsCsv := [] } .malformed =
      { csvFiles := [], impactsCsv := [] } :=
  (c8_bad_input_dropped .malformed (Or.inl rfl)).1 _

/-- Count invariant of serialized ingestion: once the per-id CSV has been
created, no later message creates it again. -/
theorem handleSeq_count_inv (msgs : List ℕ) :
    ∀ (sys : RegSys) (v : ℕ),
      sys.fileInits.count v = (if v ∈ sys.csvFiles then 1 else 0) →
      (msgs.foldl handleSeq sys).fileInits.count v =
        if v ∈ sys.csvFiles ∨ v ∈ msgs then 1 else 0 := by
  induction msgs with
  | nil => intro sys v h; simpa using h
  | cons m rest ih =>
    intro sys v h
    simp only [List.foldl_cons]
    by_cases hm : m ∈ sys.csvFiles
    · have hcsv : (handleSeq sys m).csvFiles = sys.csvFiles := by simp [handleSeq, hm]
      have hinit : (handleSeq sys m).fileInits = sys.fileInits := by simp [handleSeq, hm]
      rw [ih _ v (by rw [hcsv, hinit]; exact h), hcsv]
      by_cases hv : v = m
      · subst hv; simp [hm]
      · simp [List.mem_cons, hv]
    · have hcsv : (handleSeq sys m).csvFiles = sys.csvFiles ++ [m] := by simp [handleSeq, hm]
      have hinit : (handleSeq sys m).fileInits = sys.fileInits ++ [m] := by simp [handleSeq, hm]
      have hpre : (handleSeq sys m).fileInits.count v =
          (if v ∈ (handleSeq sys m).csvFiles then 1 else 0) := by
        rw [hcsv, hinit, List.count_append]
        by_cases hv : v = m
        · subst hv
          simp [hm] at h
          simp [h, List.mem_append]
        · simp [List.count_singleton', hv, List.mem_append, List.mem_singleton, h]
      rw [ih _ v hpre, hcsv]
      by_cases hv : v = m
      · subst hv; simp [List.mem_append]
      · simp [List.mem_append, List.mem_cons, hv]

/-- C1 (amended): when first arrivals are handled one at a time (serialized
check-create-insert), the per-vehicle CSV of every id seen at least once is
created exactly once per session, and ids never seen are never created; the
exactly-once guarantee holds only under serialization — the unsynchronized
check-then-act of `handle_client` admits interleavings that create the same
id's file twice (see the counterexample). -/
theorem c1_serialized_exactly_once (msgs : List ℕ) (v : ℕ) :
    (runSeq msgs).fileInits.count v = if v ∈ msgs then 1 else 0 := by
  have := handleSeq_count_inv msgs
    { csvFiles := [], fileInits := [], rows := [], workers := [] } v (by simp)
  simpa [runSeq] using this

/-- C1 counterexample: two ingestion workers handle first-arrival telemetry
for the same previously-unseen id 1; under the interleaving in which both
evaluate `forklift_id not in csv_files` before either runs
`initialize_forklift_csv`, both workers run to completion (`pc = 4`) yet the
per-vehicle CSV for id 1 is initialized twice in the session — creation is
not exactly-once as an invariant. -/
theorem c1_exactly_once_cex :
    (regRun [⟨1, 0⟩, ⟨1, 0⟩] [0, 1, 0, 0, 0, 1, 1, 1]).fileInits.count 1 = 2 ∧
    (∀ w ∈ (regRun [⟨1, 0⟩, ⟨1, 0⟩] [0, 1, 0, 0, 0, 1, 1, 1]).workers, w.pc = 4) ∧
    (2 : ℕ) ≠ 1 := by decide

namespace ForkliftSimulator

/-- Fields of the state that the battery phase never touches. -/
theorem batteryStep_frame (s : SimState) (dt : ℝ) :
    (batteryStep s dt).x = s.x ∧ (batteryStep s dt).y = s.y ∧
    (batteryStep s dt).roomW = s.roomW ∧ (batteryStep s dt).roomH = s.roomH ∧
    (batteryStep s dt).impacts = s.impacts ∧
    (batteryStep s dt).direction = s.direction ∧
    (batteryStep s dt).maxSpeed = s.maxSpeed := by
  unfold batteryStep
  dsimp only
  repeat' split
  all_goals simp

/-- Fields of the state that the idle/moving decision never touches. -/
theorem motionDecision_frame (s : SimState) (d : TickDraws) :
    (motionDecision s d).x = s.x ∧ (motionDecision s d).y = s.y ∧
    (motionDecision s d).roomW = s.roomW ∧ (motionDecision s d).roomH = s.roomH ∧
    (motionDecision s d).batteryLevel = s.batteryLevel ∧
    (motionDecision s d).impacts = s.impacts := by
  unfold motionDecision
  dsimp only
  repeat' split
  all_goals simp

/-- Fields of the state that the movement phase never touches. -/
theorem moveStep_frame (s : SimState) (dt : ℝ) :
    (moveStep s dt).speed = s.speed ∧ (moveStep s dt).standingStill = s.standingStill ∧
    (moveStep s dt).roomW = s.roomW ∧ (moveStep s dt).roomH = s.roomH ∧
    (moveStep s dt).batteryLevel = s.batteryLevel ∧
    (moveStep s dt).impacts = s.impacts ∧
    (moveStep s dt).maxSpeed = s.maxSpeed := by
  unfold moveStep
  simp

/-- Fields of the state that the statistics phase never touches. -/
theorem statsStep_frame (s : SimState) :
    (statsStep s).x = s.x ∧ (statsStep s).y = s.y ∧
    (statsStep s).roomW = s.roomW ∧ (statsStep s).roomH = s.roomH ∧
    (statsStep s).speed = s.speed ∧ (statsStep s).standingStill = s.standingStill ∧
    (statsStep s).batteryLevel = s.batteryLevel ∧
    (statsStep s).impacts = s.impacts ∧
    (statsStep s).direction = s.direction := by
  unfold statsStep
  try dsimp only
  repeat' split
  all_goals simp

/-- Fields of the state that the impact phase never touches, and the fact
that it only ever appends at the end of the impact list. -/
theorem impactStep_frame (s : SimState) (d : TickDraws) :
    (impactStep s d).x = s.x ∧ (impactStep s d).y = s.y ∧
    (impactStep s d).roomW = s.roomW ∧ (impactStep s d).roomH = s.roomH ∧
    (impactStep s d).speed = s.speed ∧ (impactStep s d).standingStill = s.standingStill ∧
    (impactStep s d).batteryLevel = s.batteryLevel ∧
    (∃ t, (impactStep s d).impacts = s.impacts ++ t) := by
  unfold impactStep
  try dsimp only
  split
  · exact ⟨rfl, rfl, rfl, rfl, rfl, rfl, rfl, _, rfl⟩
  · exact ⟨rfl, rfl, rfl, rfl, rfl, rfl, rfl, [], by simp⟩

end ForkliftSimulator

namespace ForkliftSimulator

/-- The battery phase keeps the charge in `[0, 100]`: the drain branch
clamps below at 0, the recharge branch clamps above at 100. -/
theorem batteryStep_battery_bounds (s : SimState) (dt : ℝ)
    (h0 : 0 ≤ s.batteryLevel) (h1 : s.batteryLevel ≤ 100) (hdt : 0 ≤ dt) :
    0 ≤ (batteryStep s dt).batteryLevel ∧ (batteryStep s dt).batteryLevel ≤ 100 := by
  unfold batteryStep
  dsimp only
  repeat' split
  all_goals simp_all
  all_goals first
  | constructor <;> linarith
  | linarith

/-- One tick keeps the battery charge in `[0, 100]`. -/
theorem tick_battery_bounds (s : SimState) (d : TickDraws)
    (h0 : 0 ≤ s.batteryLevel) (h1 : s.batteryLevel ≤ 100) (hdt : 0 ≤ d.dt) :
    0 ≤ (tick s d).batteryLevel ∧ (tick s d).batteryLevel ≤ 100 := by
  unfold tick
  rw [(impactStep_frame _ _).2.2.2.2.2.2.1]
  rw [(statsStep_frame _).2.2.2.2.2.2.1]
  rw [(moveStep_frame _ _).2.2.2.2.1]
  rw [(motionDecision_frame _ _).2.2.2.2.1]
  exact batteryStep_battery_bounds s d.dt h0 h1 hdt

/-- Any sequence of ticks keeps the battery charge in `[0, 100]`. -/
theorem ticks_battery_bounds (ds : List TickDraws) :
    ∀ s : SimState, 0 ≤ s.batteryLevel → s.batteryLevel ≤ 100 →
      (∀ d ∈ ds, 0 ≤ d.dt) →
      0 ≤ (ds.foldl tick s).batteryLevel ∧ (ds.foldl tick s).batteryLevel ≤ 100 := by
  induction ds with
  | nil => intro s h0 h1 _; exact ⟨h0, h1⟩
  | cons d rest ih =>
    intro s h0 h1 hdt
    simp only [List.foldl_cons]
    have hb := tick_battery_bounds s d h0 h1 (hdt d (by simp))
    exact ih _ hb.1 hb.2 (fun d' hd' => hdt d' (by simp [hd']))

end ForkliftSimulator

/-- C7: starting from an initial battery level in `[50, 100]` (the source
draws `random.uniform(50, 100)`), after every sequence of ticks with
non-negative elapsed times the battery level remains within `[0, 100]`: the
drain branch clamps below at 0 and the recharge branch clamps above at
100. -/
theorem c7_battery_in_range (fid : String) (env : Env) (rx ry rdir rbat : ℝ)
    (hb0 : 50 ≤ rbat) (hb1 : rbat ≤ 100) (ds : List TickDraws)
    (hdt : ∀ d ∈ ds, 0 ≤ d.dt) :
    0 ≤ (ds.foldl ForkliftSimulator.tick
          (ForkliftSimulator.init fid env rx ry rdir rbat)).batteryLevel ∧
    (ds.foldl ForkliftSimulator.tick
          (ForkliftSimulator.init fid env rx ry rdir rbat)).batteryLevel ≤ 100 :=
  ForkliftSimulator.ticks_battery_bounds ds _
    (by simp only [ForkliftSimulator.init]; linarith)
    (by simp only [ForkliftSimulator.init]; linarith) hdt

/-- C7 witness: one tick of one second from a concrete indoor start with
battery 60 stays in range. -/
theorem c7_battery_in_range_witness :
    0 ≤ (([⟨1, 0.5, 0.5, 0, 0.9, 0.5, 2, 1⟩] : List TickDraws).foldl ForkliftSimulator.tick
          (ForkliftSimulator.init "FL-001" .indoor 10 10 0 60)).batteryLevel ∧
    (([⟨1, 0.5, 0.5, 0, 0.9, 0.5, 2, 1⟩] : List TickDraws).foldl ForkliftSimulator.tick
          (ForkliftSimulator.init "FL-001" .indoor 10 10 0 60)).batteryLevel ≤ 100 :=
  c7_battery_in_range "FL-001" .indoor 10 10 0 60 (by norm_num) (by norm_num) _
    (by intro d hd; simp at hd; subst hd; norm_num)

/-- The position invariant: the vehicle is inside the configured
environment rectangle. -/
def inRoom (s : SimState) : Prop :=
  0 ≤ s.x ∧ s.x ≤ s.roomW ∧ 0 ≤ s.y ∧ s.y ≤ s.roomH

namespace ForkliftSimulator

/-- The movement phase keeps the position inside the room: either the
projected position was already inside, or it is clamped to the boundary. -/
theorem moveStep_inRoom (s : SimState) (dt : ℝ) (h : inRoom s) : inRoom (moveStep s dt) := by
  obtain ⟨hx0, hx1, hy0, hy1⟩ := h
  have hW : 0 ≤ s.roomW := le_trans hx0 hx1
  have hH : 0 ≤ s.roomH := le_trans hy0 hy1
  unfold moveStep inRoom
  dsimp only
  refine ⟨?_, ?_, ?_, ?_⟩
  · split_ifs with hc
    · exact le_max_left 0 _
    · push_neg at hc; exact hc.1
  · split_ifs with hc
    · exact max_le hW (min_le_left _ _)
    · push_neg at hc; exact hc.2
  · split_ifs with hc
    · exact le_max_left 0 _
    · push_neg at hc; exact hc.1
  · split_ifs with hc
    · exact max_le hH (min_le_left _ _)
    · push_neg at hc; exact hc.2

/-- One tick keeps the position inside the room. -/
theorem tick_inRoom (s : SimState) (d : TickDraws) (h : inRoom s) : inRoom (tick s d) := by
  unfold tick
  have hb := batteryStep_frame s d.dt
  have hm := motionDecision_frame (batteryStep s d.dt) d
  have h1 : inRoom (motionDecision (batteryStep s d.dt) d) := by
    unfold inRoom at h ⊢
    rw [hm.1, hm.2.1, hm.2.2.1, hm.2.2.2.1, hb.1, hb.2.1, hb.2.2.1, hb.2.2.2.1]
    exact h
  have h2 := moveStep_inRoom _ d.dt h1
  have hs := statsStep_frame (moveStep (motionDecision (batteryStep s d.dt) d) d.dt)
  have hi := impactStep_frame
    (statsStep (moveStep (motionDecision (batteryStep s d.dt) d) d.dt)) d
  unfold inRoom at h2 ⊢
  rw [hi.1, hi.2.1, hi.2.2.1, hi.2.2.2.1, hs.1, hs.2.1, hs.2.2.1, hs.2.2.2.1]
  exact h2

/-- Any sequence of ticks keeps the position inside the room. -/
theorem ticks_inRoom (ds : List TickDraws) : ∀ s, inRoom s → inRoom (ds.foldl tick s) := by
  induction ds with
  | nil => exact fun s h => h
  | cons d rest ih =>
    intro s h
    simp only [List.foldl_cons]
    exact ih _ (tick_inRoom s d h)

end ForkliftSimulator

/-- C6: starting from an initial position inside the environment rectangle
(the source draws it uniformly inside), the simulator's internal position
never leaves `[0, width] x [0, height]` after any number of ticks; moreover
when the projected position exits a bound on an axis the position is clamped
to the boundary and the heading component normal to that boundary is
mirrored (x-axis: `pi - direction`; y-axis: `2 pi - direction`) — a bounce,
not a wrap. -/
theorem c6_position_never_leaves_room (fid : String) (env : Env) (rx ry rdir rbat : ℝ)
    (hx0 : 0 ≤ rx) (hx1 : rx ≤ (ENVIRONMENT_SIZE env).1)
    (hy0 : 0 ≤ ry) (hy1 : ry ≤ (ENVIRONMENT_SIZE env).2) :
    (∀ ds : List TickDraws,
      inRoom (ds.foldl ForkliftSimulator.tick (ForkliftSimulator.init fid env rx ry rdir rbat))) ∧
    (∀ (s : SimState) (dt : ℝ),
      (s.x + s.speed * dt * Real.cos s.direction < 0 ∨
       s.x + s.speed * dt * Real.cos s.direction > s.roomW) →
      (ForkliftSimulator.moveStep s dt).x =
          max 0 (min s.roomW (s.x + s.speed * dt * Real.cos s.direction)) ∧
        (¬(s.y + s.speed * dt * Real.sin s.direction < 0 ∨
           s.y + s.speed * dt * Real.sin s.direction > s.roomH) →
          (ForkliftSimulator.moveStep s dt).direction = Real.pi - s.direction)) ∧
    (∀ (s : SimState) (dt : ℝ),
      (s.y + s.speed * dt * Real.sin s.direction < 0 ∨
       s.y + s.speed * dt * Real.sin s.direction > s.roomH) →
      (ForkliftSimulator.moveStep s dt).y =
          max 0 (min s.roomH (s.y + s.speed * dt * Real.sin s.direction)) ∧
        (¬(s.x + s.speed * dt * Real.cos s.direction < 0 ∨
           s.x + s.speed * dt * Real.cos s.direction > s.roomW) →
          (ForkliftSimulator.moveStep s dt).direction = 2 * Real.pi - s.direction)) := by
  refine ⟨fun ds => ForkliftSimulator.ticks_inRoom ds _ ?_, fun s dt hx => ?_, fun s dt hy => ?_⟩
  · unfold inRoom ForkliftSimulator.init
    exact ⟨hx0, hx1, hy0, hy1⟩
  · unfold ForkliftSimulator.moveStep
    dsimp only
    refine ⟨by rw [if_pos hx], fun hny => ?_⟩
    rw [if_neg hny, if_pos hx]
  · unfold ForkliftSimulator.moveStep
    dsimp only
    refine ⟨by rw [if_pos hy], fun hnx => ?_⟩
    rw [if_pos hy, if_neg hnx]

/-- C6 witness: the empty tick sequence from a concrete indoor start. -/
theorem c6_position_never_leaves_room_witness :
    inRoom (([] : List TickDraws).foldl ForkliftSimulator.tick
      (ForkliftSimulator.init "FL-001" .indoor 10 10 0 60)) :=
  (c6_position_never_leaves_room "FL-001" .indoor 10 10 0 60
    (by norm_num) (by norm_num [ENVIRONMENT_SIZE]) (by norm_num)
    (by norm_num [ENVIRONMENT_SIZE])).1 []

namespace ForkliftSimulator

/-- The tick's final speed and standing flag are decided by the idle/moving
phase, and its final battery by the battery phase; the later phases do not
touch them. -/
theorem tick_speed_standing_battery (s : SimState) (d : TickDraws) :
    (tick s d).speed = (motionDecision (batteryStep s d.dt) d).speed ∧
    (tick s d).standingStill = (motionDecision (batteryStep s d.dt) d).standingStill ∧
    (tick s d).batteryLevel = (batteryStep s d.dt).batteryLevel := by
  unfold tick
  have hm := moveStep_frame (motionDecision (batteryStep s d.dt) d) d.dt
  have hs := statsStep_frame (moveStep (motionDecision (batteryStep s d.dt) d) d.dt)
  have hi := impactStep_frame (statsStep (moveStep (motionDecision (batteryStep s d.dt) d) d.dt)) d
  refine ⟨?_, ?_, ?_⟩
  · rw [hi.2.2.2.2.1, hs.2.2.2.2.1, hm.1]
  · rw [hi.2.2.2.2.2.1, hs.2.2.2.2.2.1, hm.2.1]
  · rw [hi.2.2.2.2.2.2.1, hs.2.2.2.2.2.2.1, hm.2.2.2.2.1,
      (motionDecision_frame (batteryStep s d.dt) d).2.2.2.2.1]

/-- When the (post-drain) battery is below 30 and some charging station is
within distance 3, the battery phase zeroes the speed, raises the standing
flag and recharges the battery, clamped to 100. -/
theorem batteryStep_charging (s : SimState) (dt : ℝ)
    (h0 : 0 ≤ s.batteryLevel) (hb : s.batteryLevel < 30) (hdt : 0 ≤ dt)
    (hnear : ∃ p ∈ CHARGING_STATIONS, calculate_distance s.x s.y p.2.1 p.2.2 < 3) :
    (batteryStep s dt).speed = 0 ∧ (batteryStep s dt).standingStill = true ∧
    (batteryStep s dt).batteryLevel =
      min 100 (max 0 (s.batteryLevel - 0.01 * dt) + 2 * dt) := by
  obtain ⟨p, hp, hdist⟩ := hnear
  have hfind : (CHARGING_STATIONS.find?
      (fun q => decide (calculate_distance s.x s.y q.2.1 q.2.2 < 3))).isSome := by
    rw [List.find?_isSome]
    exact ⟨p, hp, by simpa using hdist⟩
  obtain ⟨q, hq⟩ := Option.isSome_iff_exists.mp hfind
  unfold batteryStep
  dsimp only
  rw [if_pos (by split_ifs with hneg <;> linarith), hq]
  refine ⟨rfl, rfl, ?_⟩
  dsimp only
  have hmax : (if s.batteryLevel - 0.01 * dt < 0 then (0 : ℝ)
      else s.batteryLevel - 0.01 * dt) = max 0 (s.batteryLevel - 0.01 * dt) := by
    rcases lt_or_le (s.batteryLevel - 0.01 * dt) 0 with hc | hc
    · rw [if_pos hc, max_eq_left hc.le]
    · rw [if_neg (not_lt.mpr hc), max_eq_right hc]
  rw [hmax]
  rcases lt_or_le (100 : ℝ) (max 0 (s.batteryLevel - 0.01 * dt) + 2 * dt) with hd | hd
  · rw [if_pos hd, min_eq_left (by linarith)]
  · rw [if_neg (not_lt.mpr hd), min_eq_right (by linarith)]

/-- In the idle branch the vehicle stands still and decelerates. -/
theorem motionDecision_idle (s : SimState) (d : TickDraws)
    (h : d.idleDraw < PROBABILITY_OF_STANDING_STILL) :
    (motionDecision s d).standingStill = true ∧
    (motionDecision s d).speed = max 0 (s.speed - ACCELERATION * d.dt) := by
  unfold motionDecision
  dsimp only
  rw [if_pos h]
  exact ⟨rfl, rfl⟩

/-- In the moving branch (no direction change, acceleration draw) the
vehicle is not standing still and accelerates, clamped to the maximum
speed. -/
theorem motionDecision_moving_accel (s : SimState) (d : TickDraws)
    (h1 : ¬ d.idleDraw < PROBABILITY_OF_STANDING_STILL)
    (h2 : ¬ d.dirChangeDraw < 0.05) (h3 : d.accelDraw < 0.7) :
    (motionDecision s d).standingStill = false ∧
    (motionDecision s d).speed = min s.maxSpeed (s.speed + ACCELERATION * d.dt) := by
  unfold motionDecision
  dsimp only
  rw [if_neg h1, if_neg h2, if_pos h3]
  exact ⟨rfl, rfl⟩

end ForkliftSimulator

/-- C2 (amended): on a tick where the battery level is below 30 and the
position is within 3 distance units of a charging station (the source
checks every station, not only those matching the vehicle's environment),
the charging branch forces speed to 0, sets standing_still, and recharges
the battery proportionally to elapsed time with clamps to `[0, 100]`; the
later idle/moving decision of the same tick however reassigns speed and
standing_still, so the tick ends with standing_still = true and speed = 0
exactly when the idle draw also fires; the battery level strictly increases
in every case.  (The original claim overlooked the reassignment; see the
counterexample.) -/
theorem c2_charging_tick (s : SimState) (d : TickDraws)
    (h0 : 0 ≤ s.batteryLevel) (hb : s.batteryLevel < 30) (hdt : 0 < d.dt)
    (hidle : d.idleDraw < PROBABILITY_OF_STANDING_STILL)
    (hnear : ∃ p ∈ CHARGING_STATIONS, calculate_distance s.x s.y p.2.1 p.2.2 < 3) :
    (ForkliftSimulator.tick s d).standingStill = true ∧
    (ForkliftSimulator.tick s d).speed = 0 ∧
    s.batteryLevel < (ForkliftSimulator.tick s d).batteryLevel ∧
    (ForkliftSimulator.tick s d).batteryLevel =
      min 100 (max 0 (s.batteryLevel - 0.01 * d.dt) + 2 * d.dt) := by
  have hchain := ForkliftSimulator.tick_speed_standing_battery s d
  have hbat := ForkliftSimulator.batteryStep_charging s d.dt h0 hb hdt.le hnear
  have hmot := ForkliftSimulator.motionDecision_idle (ForkliftSimulator.batteryStep s d.dt) d hidle
  refine ⟨?_, ?_, ?_, ?_⟩
  · rw [hchain.2.1, hmot.1]
  · rw [hchain.1, hmot.2, hbat.1]
    have : -(ACCELERATION * d.dt) < 0 := by
      unfold ACCELERATION
      nlinarith
    rw [zero_sub, max_eq_left this.le]
  · rw [hchain.2.2, hbat.2.2]
    rcases le_or_lt (max 0 (s.batteryLevel - 0.01 * d.dt) + 2 * d.dt) 100 with hd | hd
    · rw [min_eq_right hd]
      have := le_max_right (0 : ℝ) (s.batteryLevel - 0.01 * d.dt)
      nlinarith
    · rw [min_eq_left hd.le]
      linarith
  · rw [hchain.2.2, hbat.2.2]

/-- C2 witness: an indoor vehicle at the charging station `(2, 2)` with
battery 25, a one-second tick and a firing idle draw ends the tick standing
still at speed 0 with a strictly higher battery level. -/
theorem c2_charging_tick_witness :
    (ForkliftSimulator.tick
        { forkliftId := "FL-001", environment := .indoor, roomW := 25, roomH := 20,
          x := 2, y := 2, speed := 0, maxSpeed := 2, direction := 0,
          distanceTraveled := 0, standingStill := false, batteryLevel := 25,
          impacts := [], maxRecordedSpeed := 0, speedReadings := [], positionAccuracy := 2.0 }
        ⟨1, 0.1, 0.5, 0, 0.9, 0.5, 2, 1⟩).standingStill = true ∧
    (ForkliftSimulator.tick
        { forkliftId := "FL-001", environment := .indoor, roomW := 25, roomH := 20,
          x := 2, y := 2, speed := 0, maxSpeed := 2, direction := 0,
          distanceTraveled := 0, standingStill := false, batteryLevel := 25,
          impacts := [], maxRecordedSpeed := 0, speedReadings := [], positionAccuracy := 2.0 }
        ⟨1, 0.1, 0.5, 0, 0.9, 0.5, 2, 1⟩).speed = 0 ∧
    (25 : ℝ) < (ForkliftSimulator.tick
        { forkliftId := "FL-001", environment := .indoor, roomW := 25, roomH := 20,
          x := 2, y := 2, speed := 0, maxSpeed := 2, direction := 0,
          distanceTraveled := 0, standingStill := false, batteryLevel := 25,
          impacts := [], maxRecordedSpeed := 0, speedReadings := [], positionAccuracy := 2.0 }
        ⟨1, 0.1, 0.5, 0, 0.9, 0.5, 2, 1⟩).batteryLevel :=
  have h := c2_charging_tick
    { forkliftId := "FL-001", environment := .indoor, roomW := 25, roomH := 20,
      x := 2, y := 2, speed := 0, maxSpeed := 2, direction := 0,
      distanceTraveled := 0, standingStill := false, batteryLevel := 25,
      impacts := [], maxRecordedSpeed := 0, speedReadings := [], positionAccuracy := 2.0 }
    ⟨1, 0.1, 0.5, 0, 0.9, 0.5, 2, 1⟩
    (by norm_num) (by norm_num) (by norm_num)
    (by norm_num [PROBABILITY_OF_STANDING_STILL])
    ⟨("indoor_charge1", (2, 2)), by simp [CHARGING_STATIONS],
      by norm_num [calculate_distance, Real.sqrt_zero]⟩
  ⟨h.1, h.2.1, h.2.2.1⟩

/-- C2 counterexample: an indoor vehicle exactly at charging station
`(2, 2)` (matching its environment) with battery 25 and a one-second tick,
but with an idle draw of 0.5 and an acceleration draw of 0.5: the charging
branch fires, yet the tick ends with standing_still = false and speed 0.2 —
refuting the claim that such a tick yields standing_still = true and
speed = 0. -/
theorem c2_charging_tick_cex :
    ({ forkliftId := "FL-001", environment := .indoor, roomW := 25, roomH := 20,
       x := 2, y := 2, speed := 0, maxSpeed := 2, direction := 0,
       distanceTraveled := 0, standingStill := false, batteryLevel := 25,
       impacts := [], maxRecordedSpeed := 0, speedReadings := [],
       positionAccuracy := 2.0 } : SimState).batteryLevel < 30 ∧
    (∃ p ∈ CHARGING_STATIONS, calculate_distance
      ({ forkliftId := "FL-001", environment := .indoor, roomW := 25, roomH := 20,
         x := 2, y := 2, speed := 0, maxSpeed := 2, direction := 0,
         distanceTraveled := 0, standingStill := false, batteryLevel := 25,
         impacts := [], maxRecordedSpeed := 0, speedReadings := [],
         positionAccuracy := 2.0 } : SimState).x
      ({ forkliftId := "FL-001", environment := .indoor, roomW := 25, roomH := 20,
         x := 2, y := 2, speed := 0, maxSpeed := 2, direction := 0,
         distanceTraveled := 0, standingStill := false, batteryLevel := 25,
         impacts := [], maxRecordedSpeed := 0, speedReadings := [],
         positionAccuracy := 2.0 } : SimState).y p.2.1 p.2.2 < 3) ∧
    (ForkliftSimulator.tick
        { forkliftId := "FL-001", environment := .indoor, roomW := 25, roomH := 20,
          x := 2, y := 2, speed := 0, maxSpeed := 2, direction := 0,
          distanceTraveled := 0, standingStill := false, batteryLevel := 25,
          impacts := [], maxRecordedSpeed := 0, speedReadings := [], positionAccuracy := 2.0 }
        ⟨1, 0.5, 0.5, 0, 0.5, 0.5, 2, 1⟩).standingStill = false ∧
    (ForkliftSimulator.tick
        { forkliftId := "FL-001", environment := .indoor, roomW := 25, roomH := 20,
          x := 2, y := 2, speed := 0, maxSpeed := 2, direction := 0,
          distanceTraveled := 0, standingStill := false, batteryLevel := 25,
          impacts := [], maxRecordedSpeed := 0, speedReadings := [], positionAccuracy := 2.0 }
        ⟨1, 0.5, 0.5, 0, 0.5, 0.5, 2, 1⟩).speed = 0.2 := by
  have hnear : ∃ p ∈ CHARGING_STATIONS, calculate_distance (2 : ℝ) (2 : ℝ) p.2.1 p.2.2 < 3 :=
    ⟨("indoor_charge1", (2, 2)), by simp [CHARGING_STATIONS],
      by norm_num [calculate_distance, Real.sqrt_zero]⟩
  have hchain := ForkliftSimulator.tick_speed_standing_battery
    { forkliftId := "FL-001", environment := .indoor, roomW := 25, roomH := 20,
      x := 2, y := 2, speed := 0, maxSpeed := 2, direction := 0,
      distanceTraveled := 0, standingStill := false, batteryLevel := 25,
      impacts := [], maxRecordedSpeed := 0, speedReadings := [], positionAccuracy := 2.0 }
    ⟨1, 0.5, 0.5, 0, 0.5, 0.5, 2, 1⟩
  have hbat := ForkliftSimulator.batteryStep_charging
    { forkliftId := "FL-001", environment := .indoor, roomW := 25, roomH := 20,
      x := 2, y := 2, speed := 0, maxSpeed := 2, direction := 0,
      distanceTraveled := 0, standingStill := false, batteryLevel := 25,
      impacts := [], maxRecordedSpeed := 0, speedReadings := [], positionAccuracy := 2.0 }
    1 (by norm_num) (by norm_num) (by norm_num) hnear
  have hmot := ForkliftSimulator.motionDecision_moving_accel
    (ForkliftSimulator.batteryStep
      { forkliftId := "FL-001", environment := .indoor, roomW := 25, roomH := 20,
        x := 2, y := 2, speed := 0, maxSpeed := 2, direction := 0,
        distanceTraveled := 0, standingStill := false, batteryLevel := 25,
        impacts := [], maxRecordedSpeed := 0, speedReadings := [], positionAccuracy := 2.0 }
      1)
    ⟨1, 0.5, 0.5, 0, 0.5, 0.5, 2, 1⟩
    (by norm_num [PROBABILITY_OF_STANDING_STILL]) (by norm_num) (by norm_num)
  have hms := (ForkliftSimulator.batteryStep_frame
    { forkliftId := "FL-001", environment := .indoor, roomW := 25, roomH := 20,
      x := 2, y := 2, speed := 0, maxSpeed := 2, direction := 0,
      distanceTraveled := 0, standingStill := false, batteryLevel := 25,
      impacts := [], maxRecordedSpeed := 0, speedReadings := [], positionAccuracy := 2.0 }
    1).2.2.2.2.2.2
  refine ⟨by norm_num, hnear, ?_, ?_⟩
  · rw [hchain.2.1, hmot.1]
  · rw [hchain.1, hmot.2, hbat.1, hms]
    norm_num [ACCELERATION]

namespace ForkliftSimulator

/-- The impacts field of a snapshot is exactly the last five stored
impacts (`impacts[-5:] if impacts else []`). -/
theorem get_telemetry_impacts (s : SimState) (d : TelemetryDraws) :
    (get_telemetry s d).impacts = s.impacts.rtake 5 := by
  unfold get_telemetry
  dsimp only
  rcases hs : s.impacts with _ | ⟨a, l⟩
  · simp
  · simp [hs]

/-- In the moving branch the standing flag always ends up false. -/
theorem motionDecision_moving (s : SimState) (d : TickDraws)
    (h : ¬ d.idleDraw < PROBABILITY_OF_STANDING_STILL) :
    (motionDecision s d).standingStill = false := by
  unfold motionDecision
  dsimp only
  rw [if_neg h]
  repeat' split
  all_goals simp

/-- A moving tick whose impact draw fires appends exactly one impact, with
the tick's timestamp and magnitude, at the end of the stored list. -/
theorem tick_impacts_firing (s : SimState) (d : TickDraws)
    (h1 : ¬ d.idleDraw < PROBABILITY_OF_STANDING_STILL)
    (h2 : d.impactDraw < PROBABILITY_OF_IMPACT) :
    ∃ px py, (tick s d).impacts =
      s.impacts ++ [⟨d.timestamp, d.impactMagnitude, (px, py)⟩] := by
  unfold tick
  have hstand : (statsStep (moveStep (motionDecision (batteryStep s d.dt) d) d.dt)).standingStill
      = false := by
    rw [(statsStep_frame _).2.2.2.2.2.1, (moveStep_frame _ _).2.1,
      motionDecision_moving (batteryStep s d.dt) d h1]
  have himp : (statsStep (moveStep (motionDecision (batteryStep s d.dt) d) d.dt)).impacts
      = s.impacts := by
    rw [(statsStep_frame _).2.2.2.2.2.2.2.1, (moveStep_frame _ _).2.2.2.2.2.1,
      (motionDecision_frame _ _).2.2.2.2.2, (batteryStep_frame _ _).2.2.2.2.1]
  refine ⟨(statsStep (moveStep (motionDecision (batteryStep s d.dt) d) d.dt)).x,
          (statsStep (moveStep (motionDecision (batteryStep s d.dt) d) d.dt)).y, ?_⟩
  unfold impactStep
  rw [if_pos ⟨by simp [hstand], h2⟩, himp]

end ForkliftSimulator

/-- The ordering convention claimed in the spec: most recent impact first,
i.e. timestamps non-increasing along the list. -/
def mostRecentFirst (l : List Impact) : Prop :=
  l.Pairwise (fun a b => b.timestamp ≤ a.timestamp)

/-- C3 (amended): every snapshot's impacts list has at most 5 entries and
consists of the most recent stored impacts — it is exactly the final
segment (last five) of the stored impact list; since each tick only ever
appends new impacts at the end, the stored list is in generation order and
the snapshot list is therefore ordered most-recent-LAST (chronologically),
not most-recent-first as claimed. -/
theorem c3_snapshot_impacts (s : SimState) (d : TelemetryDraws) :
    (ForkliftSimulator.get_telemetry s d).impacts = s.impacts.rtake 5 ∧
    (ForkliftSimulator.get_telemetry s d).impacts.length ≤ 5 ∧
    ((ForkliftSimulator.get_telemetry s d).impacts <:+ s.impacts) ∧
    (∀ (s' : SimState) (d' : TickDraws),
      ∃ t, (ForkliftSimulator.tick s' d').impacts = s'.impacts ++ t) := by
  refine ⟨ForkliftSimulator.get_telemetry_impacts s d, ?_, ?_, ?_⟩
  · rw [ForkliftSimulator.get_telemetry_impacts s d]
    simp only [List.rtake, List.length_drop]
    omega
  · rw [ForkliftSimulator.get_telemetry_impacts s d]
    exact List.drop_suffix _ _
  · intro s' d'
    obtain ⟨t, ht⟩ := (ForkliftSimulator.impactStep_frame
      (ForkliftSimulator.statsStep (ForkliftSimulator.moveStep
        (ForkliftSimulator.motionDecision (ForkliftSimulator.batteryStep s' d'.dt) d')
        d'.dt)) d').2.2.2.2.2.2.2
    refine ⟨t, ?_⟩
    unfold ForkliftSimulator.tick
    rw [ht, (ForkliftSimulator.statsStep_frame _).2.2.2.2.2.2.2.1,
      (ForkliftSimulator.moveStep_frame _ _).2.2.2.2.2.1,
      (ForkliftSimulator.motionDecision_frame _ _).2.2.2.2.2,
      (ForkliftSimulator.batteryStep_frame _ _).2.2.2.2.1]

/-- C3 counterexample: two consecutive moving ticks each generate one
impact (timestamps 1 then 2); the next snapshot exposes the impacts with
timestamps `[1, 2]` — the most recent impact is LAST, so the list is not an
ordered sequence most-recent-first as claimed. -/
theorem c3_snapshot_impacts_cex :
    ((ForkliftSimulator.get_telemetry
        (ForkliftSimulator.tick
          (ForkliftSimulator.tick (ForkliftSimulator.init "FL-001" .indoor 10 10 0 80)
            ⟨1, 0.5, 0.5, 0, 0.9, 0.005, 2, 1⟩)
          ⟨1, 0.5, 0.5, 0, 0.9, 0.005, 2, 2⟩)
        ⟨3, 0, 0, fun _ => 0⟩).impacts.map Impact.timestamp = [1, 2]) ∧
    ¬ mostRecentFirst (ForkliftSimulator.get_telemetry
        (ForkliftSimulator.tick
          (ForkliftSimulator.tick (ForkliftSimulator.init "FL-001" .indoor 10 10 0 80)
            ⟨1, 0.5, 0.5, 0, 0.9, 0.005, 2, 1⟩)
          ⟨1, 0.5, 0.5, 0, 0.9, 0.005, 2, 2⟩)
        ⟨3, 0, 0, fun _ => 0⟩).impacts := by
  obtain ⟨p1x, p1y, h1⟩ := ForkliftSimulator.tick_impacts_firing
    (ForkliftSimulator.init "FL-001" .indoor 10 10 0 80) ⟨1, 0.5, 0.5, 0, 0.9, 0.005, 2, 1⟩
    (by norm_num [PROBABILITY_OF_STANDING_STILL]) (by norm_num [PROBABILITY_OF_IMPACT])
  obtain ⟨p2x, p2y, h2⟩ := ForkliftSimulator.tick_impacts_firing
    (ForkliftSimulator.tick (ForkliftSimulator.init "FL-001" .indoor 10 10 0 80)
      ⟨1, 0.5, 0.5, 0, 0.9, 0.005, 2, 1⟩) ⟨1, 0.5, 0.5, 0, 0.9, 0.005, 2, 2⟩
    (by norm_num [PROBABILITY_OF_STANDING_STILL]) (by norm_num [PROBABILITY_OF_IMPACT])
  rw [show (ForkliftSimulator.init "FL-001" Env.indoor 10 10 0 80).impacts = [] from rfl] at h1
  rw [h1] at h2
  rw [ForkliftSimulator.get_telemetry_impacts, h2]
  constructor
  · simp [List.rtake]
  · simp [mostRecentFirst, List.rtake]
